import Mathlib

/-!
Shallow embedding of the spreadsheet-to-JSON extraction service in
`src/app.py` (Flask + openpyxl).  Python dictionaries whose keys are fixed
in the source are modelled as Lean structures with `Option` fields, where
`none` means "key absent"; Python `None` values stored under a present key
are modelled inside `PyVal`.  Python truthiness (`if v`) is modelled by
`pyTruthy`.  The openpyxl objects the code consumes are modelled at the
interface level the code relies on: attributes the code reads become
fields, optional attributes become `Option` fields.
-/

set_option maxRecDepth 4096

namespace ExcelApp

/-- A generic Python value as it appears in style/rule attributes:
`None`, a bool, a string, an integer, or a list (e.g. a formula list). -/
inductive PyVal where
  | vNone : PyVal
  | vBool : Bool → PyVal
  | vStr : String → PyVal
  | vNum : Int → PyVal
  | vList : List PyVal → PyVal
  deriving Repr

/-- Python truthiness of a `PyVal`: `None` is falsy, `False` is falsy,
the empty string is falsy, `0` is falsy, `[]` is falsy. -/
def pyTruthy : PyVal → Bool
  | .vNone => false
  | .vBool b => b
  | .vStr s => s != ""
  | .vNum n => n != 0
  | .vList l => !l.isEmpty

/-- An openpyxl colour reference as seen by `get_serializable_color`:
either Python `None`, an `openpyxl.styles.colors.Color` instance whose
`.rgb` attribute is a string or `None` (theme / indexed colours carry no
resolved rgb), or some other object (not a `Color` instance). -/
inductive ColorObj where
  | pyNone : ColorObj
  | color : Option String → ColorObj
  | otherObj : String → ColorObj
  deriving Repr, DecidableEq

/-- `get_serializable_color` (src/app.py lines 18-23):
returns `color_obj.rgb` when `color_obj` is truthy, is a `Color` instance
and its `.rgb` is truthy; otherwise returns Python `None`. -/
def get_serializable_color : ColorObj → Option String
  | .color (some s) => if s != "" then some s else none
  | _ => none

/-- The colour result as a dictionary value: `None` when unresolved. -/
def colorVal (c : ColorObj) : PyVal :=
  match get_serializable_color c with
  | some s => .vStr s
  | none => .vNone

/-- The `cell.font` object: attributes read by the code. -/
structure FontObj where
  name : PyVal
  sz : PyVal
  bold : PyVal
  italic : PyVal
  color : ColorObj
  deriving Repr

/-- The `cell.fill` object: attributes read by the code. -/
structure FillObj where
  fill_type : PyVal
  start_color : ColorObj
  end_color : ColorObj
  deriving Repr

/-- One side of a border (`cell.border.left` etc.). -/
structure SideObj where
  style : PyVal
  color : ColorObj
  deriving Repr

/-- The `cell.border` object: the four sides, each possibly `None`. -/
structure BorderObj where
  left : Option SideObj
  right : Option SideObj
  top : Option SideObj
  bottom : Option SideObj
  deriving Repr

/-- The `cell.alignment` object: attributes read by the code. -/
structure AlignmentObj where
  horizontal : PyVal
  vertical : PyVal
  wrap_text : PyVal
  deriving Repr

/-- The style-bearing attributes of an openpyxl cell that
`extract_styles_from_cell` reads.  Sub-objects that can be Python `None`
are `Option` fields (`none` is falsy under `if cell.font:` etc.). -/
structure Cell where
  has_style : Bool
  font : Option FontObj
  fill : Option FillObj
  border : Option BorderObj
  alignment : Option AlignmentObj
  number_format : PyVal
  deriving Repr

/-- The value of the `'style'`/`'color'` pair produced by
`get_side_style` inside `extract_styles_from_cell`: note the inner dict is
not filtered, so `color` may be Python `None` (modelled `Option.none`). -/
structure SideData where
  style : PyVal
  color : Option String
  deriving Repr

/-- `get_side_style` (nested in src/app.py lines 54-57): a `{style, color}`
dict when the side exists and its line style is truthy, else `None`. -/
def get_side_style : Option SideObj → Option SideData
  | some side => if pyTruthy side.style then
      some { style := side.style, color := get_serializable_color side.color }
    else none
  | none => none

/-- `{k: v for k, v in d.items() if v}`: keep only truthy values. -/
def filterTruthy (l : List (String × PyVal)) : List (String × PyVal) :=
  l.filter (fun kv => pyTruthy kv.2)

/-- Python equality with the string `'General'` (`cell.number_format ==
'General'`): only the string `'General'` compares equal to it. -/
def isGeneralFmt : PyVal → Bool
  | .vStr "General" => true
  | _ => false

/-- The `style_data` dictionary produced by `extract_styles_from_cell`:
each field is a key that is present (`some`) or absent (`none`). -/
structure StyleData where
  font : Option (List (String × PyVal)) := none
  fill : Option (List (String × PyVal)) := none
  border : Option (List (String × SideData)) := none
  alignment : Option (List (String × PyVal)) := none
  numFmt : Option PyVal := none
  deriving Repr

/-- The `border_data` dictionary after `{k: v for k, v in ... if v}`:
sides whose `get_side_style` is `None` (falsy) are dropped; a present
`{style, color}` dict is truthy since it is non-empty. -/
def border_record (b : BorderObj) : List (String × SideData) :=
  ([("left", get_side_style b.left), ("right", get_side_style b.right),
    ("top", get_side_style b.top), ("bottom", get_side_style b.bottom)]
    : List (String × Option SideData)).filterMap
      (fun kv => kv.2.map (fun sd => (kv.1, sd)))

/-- `extract_styles_from_cell` (src/app.py lines 25-79). -/
def extract_styles_from_cell (cell : Cell) : StyleData :=
  if !cell.has_style then {}
  else
    { font := cell.font.map (fun f => filterTruthy
        [("name", f.name), ("sz", f.sz), ("bold", f.bold),
         ("italic", f.italic), ("color", colorVal f.color)])
      fill := match cell.fill with
        | some fl =>
          if pyTruthy fl.fill_type then
            some (filterTruthy
              [("pattern", fl.fill_type),
               ("start_color", colorVal fl.start_color),
               ("end_color", colorVal fl.end_color)])
          else none
        | none => none
      border := cell.border.map border_record
      alignment := cell.alignment.map (fun a => filterTruthy
        [("horizontal", a.horizontal), ("vertical", a.vertical),
         ("wrap_text", a.wrap_text)])
      numFmt :=
        if pyTruthy cell.number_format && !isGeneralFmt cell.number_format
        then some cell.number_format else none }

/-- Whether the cell's fill object is present with a truthy `fill_type`
(the guard `if cell.fill and cell.fill.fill_type:`). -/
def hasTruthyFillType (cell : Cell) : Bool :=
  match cell.fill with
  | some fl => pyTruthy fl.fill_type
  | none => false

/-- Every field stored inside the emitted sub-records of a `StyleData` is
truthy (non-default): the "minimal diff" property at field level. -/
def minimalFields (sd : StyleData) : Bool :=
  (sd.font.getD []).all (fun kv => pyTruthy kv.2) &&
  (sd.fill.getD []).all (fun kv => pyTruthy kv.2) &&
  (sd.alignment.getD []).all (fun kv => pyTruthy kv.2) &&
  ((sd.border.getD []).all (fun kv => pyTruthy kv.2.style)) &&
  (sd.numFmt.map pyTruthy).getD true

/-- The kind of a conditional-formatting rule object, as tested by the
source's `isinstance(rule, ColorScaleRule)` / `isinstance(rule, DataBarRule)`
checks; `generic` is any other rule object. -/
inductive RuleKind where
  | colorScale : RuleKind
  | dataBar : RuleKind
  | generic : RuleKind
  deriving Repr, DecidableEq

/-- A `cfvo` (conditional-format value object) entry: the code reads `.val`. -/
structure CFVO where
  val : PyVal
  deriving Repr

/-- The `rule.colorScale` payload: parallel `color` and `cfvo` sequences. -/
structure ColorScalePayload where
  color : List ColorObj
  cfvo : List CFVO
  deriving Repr

/-- The `rule.dataBar` payload: the attributes the code reads. -/
structure DataBarPayload where
  color : ColorObj
  minLength : PyVal
  maxLength : PyVal
  deriving Repr

/-- A conditional-formatting rule object, modelled at the interface the code
consumes: its isinstance kind, `.type`, `.priority`, the optional
`.colorScale` / `.dataBar` payloads (Python `None` when unset), and the
`.formula` attribute (`none` models `hasattr(rule, 'formula')` false). -/
structure Rule where
  kind : RuleKind
  type : Option String
  priority : Option Int
  colorScale : Option ColorScalePayload
  dataBar : Option DataBarPayload
  formula : Option PyVal
  deriving Repr

/-- The emitted `color_scale` detail payload. -/
structure ColorScaleInfo where
  colors : List (Option String)
  values : List PyVal
  deriving Repr

/-- The emitted `data_bar` detail payload. -/
structure DataBarInfo where
  color : Option String
  min_length : PyVal
  max_length : PyVal
  deriving Repr

/-- The `rule_info` dictionary built by `extract_conditional_formats`:
the source writes only the keys `range` and `type` unconditionally, and at
most one of `color_scale` / `data_bar` / `formula`.  The `priority` field
records whether a `priority` key is present — the source never writes one,
so it is `none` in every record the code produces. -/
structure RuleInfo where
  range : String
  type : Option String
  priority : Option Int := none
  color_scale : Option ColorScaleInfo := none
  data_bar : Option DataBarInfo := none
  formula : Option PyVal := none
  deriving Repr

/-- The body of the inner loop of `extract_conditional_formats`
(src/app.py lines 87-106): tag with `{range, type}`, then the
`if` / `elif` / `elif` detail dispatch. -/
def process_rule (range_string : String) (rule : Rule) : RuleInfo :=
  let base : RuleInfo := { range := range_string, type := rule.type }
  match rule.kind, rule.colorScale, rule.dataBar with
  | .colorScale, some cs, _ =>
    { base with
      color_scale := some ({ colors := cs.color.map get_serializable_color,
                             values := cs.cfvo.map CFVO.val } : ColorScaleInfo) }
  | .dataBar, _, some db =>
    { base with
      data_bar := some ({ color := get_serializable_color db.color,
                          min_length := db.minLength,
                          max_length := db.maxLength } : DataBarInfo) }
  | _, _, _ =>
    match rule.formula with
    | some f => if pyTruthy f then { base with formula := some f } else base
    | none => base

/-- The first branch condition of the rule dispatch:
`isinstance(rule, ColorScaleRule) and rule.colorScale`. -/
def isColorScaleCase (r : Rule) : Bool :=
  (r.kind == RuleKind.colorScale) && r.colorScale.isSome

/-- The second branch condition of the rule dispatch:
`isinstance(rule, DataBarRule) and rule.dataBar`. -/
def isDataBarCase (r : Rule) : Bool :=
  (r.kind == RuleKind.dataBar) && r.dataBar.isSome

/-- The third branch condition of the rule dispatch:
`hasattr(rule, 'formula') and rule.formula`. -/
def hasTruthyFormula (r : Rule) : Bool :=
  (r.formula.map pyTruthy).getD false

/-- How many detail-payload keys a `rule_info` record carries. -/
def payloadCount (ri : RuleInfo) : Nat :=
  (if ri.color_scale.isSome then 1 else 0) +
  (if ri.data_bar.isSome then 1 else 0) +
  (if ri.formula.isSome then 1 else 0)

/-- A chart title object: `chart.title`, whose `.text` may be `None`,
and whose `.text.text` is the title value. -/
structure TextObj where
  text : PyVal
  deriving Repr

/-- The nested `.v` carrier of a series header (`s.tx`). -/
structure TxObj where
  v : PyVal
  deriving Repr

/-- A data source of a chart series (`s.val` / `s.cat`): `ref` is `some`
exactly when the object has a `ref` attribute, holding `str(obj.ref)`. -/
structure DataSourceObj where
  ref : Option String
  deriving Repr

/-- A chart series object: the attributes the code reads, each possibly
Python `None`. -/
structure SeriesObj where
  tx : Option TxObj
  val : Option DataSourceObj
  cat : Option DataSourceObj
  deriving Repr

/-- A chart object: class name, optional `.title` (whose `.text` is also
optional), the `str()` form of `.anchor`, and the series list. -/
structure ChartObj where
  className : String
  title : Option (Option TextObj)
  anchor : String
  series : List SeriesObj
  deriving Repr

/-- The emitted `series_info` record. -/
structure SeriesInfo where
  header : Option PyVal
  values : Option String
  categories : Option String
  deriving Repr

/-- The emitted `chart_info` record. -/
structure ChartInfo where
  type : String
  title : Option PyVal
  anchor : String
  series : List SeriesInfo
  deriving Repr

/-- The per-series body of `extract_charts` (src/app.py lines 122-130). -/
def series_info (s : SeriesObj) : SeriesInfo :=
  { header := match s.tx with
      | some t => some t.v
      | none => none
    values := match s.val with
      | some v => v.ref
      | none => none
    categories := match s.cat with
      | some c => c.ref
      | none => none }

/-- The per-chart body of `extract_charts` (src/app.py lines 114-130):
`chart.title.text.text if chart.title and chart.title.text else None`. -/
def chart_info (chart : ChartObj) : ChartInfo :=
  { type := chart.className
    title := match chart.title with
      | some (some t) => some t.text
      | _ => none
    anchor := chart.anchor
    series := chart.series.map series_info }

/-- A grid cell as yielded by `ws.iter_rows()`: its `.coordinate`, its
`.value`, whether it is a `MergedCell` instance, and its style attributes
(read only when it is not a merged placeholder). -/
structure GridCell where
  coordinate : String
  value : PyVal
  isMergedCell : Bool
  styleAttrs : Cell
  deriving Repr

/-- The `cell_info` dictionary built in the grid loop of `parse_excel`:
`address` and `value` always; `is_merged_part` only for merged
placeholders; `style` only for ordinary cells. -/
structure CellInfo where
  address : String
  value : PyVal
  is_merged_part : Option Bool := none
  style : Option StyleData := none
  deriving Repr

/-- The grid-loop body of `parse_excel` (src/app.py lines 173-177). -/
def cell_info (c : GridCell) : CellInfo :=
  if c.isMergedCell then
    { address := c.coordinate, value := c.value, is_merged_part := some true }
  else
    { address := c.coordinate, value := c.value,
      style := some (extract_styles_from_cell c.styleAttrs) }

/-- A worksheet, at the interface `parse_excel` and the extractors read:
`conditional_formatting.items()` as (range string, rules) pairs, the
`_charts` attribute (`none` models a sheet object lacking the attribute
altogether, in which case the attribute access raises `AttributeError`),
merged ranges already stringified, and the `iter_rows()` grid. -/
structure Worksheet where
  name : String
  merged_ranges : List String
  conditional_formatting : List (String × List Rule)
  charts : Option (List ChartObj)
  rows : List (List GridCell)
  deriving Repr

/-- `extract_conditional_formats` (src/app.py lines 81-107): the two nested
loops appending one `rule_info` per rule. -/
def extract_conditional_formats (ws : Worksheet) : List RuleInfo :=
  (ws.conditional_formatting.map
    (fun g => g.2.map (process_rule g.1))).flatten

/-- The error message of the `AttributeError` raised by `ws._charts` when
the sheet object has no such attribute. -/
def chartsAttributeError : String :=
  "AttributeError: worksheet object has no attribute _charts"

/-- `extract_charts` (src/app.py lines 109-133): iterates `ws._charts`
directly; if the sheet object lacks the attribute, the access raises
(modelled as `Except.error`), otherwise every chart is flattened. -/
def extract_charts (ws : Worksheet) : Except String (List ChartInfo) :=
  match ws.charts with
  | none => .error chartsAttributeError
  | some cs => .ok (cs.map chart_info)

/-- The per-sheet `sheet_data` dictionary of `parse_excel`. -/
structure SheetData where
  name : String
  merged_cells : List String
  data : List (List CellInfo)
  conditional_formats : List RuleInfo
  charts : List ChartInfo
  deriving Repr

/-- The top-level `parsed_data` dictionary of `parse_excel`. -/
structure ParsedData where
  sheets : List SheetData
  deriving Repr

/-- A decoded workbook: `wb.sheetnames` order with `wb[name]` lookup is
modelled as the ordered sheet list. -/
structure Workbook where
  sheets : List Worksheet
  deriving Repr

/-- The per-sheet body of the `parse_excel` loop (src/app.py lines
158-182): any exception from `extract_charts` propagates. -/
def parse_sheet (ws : Worksheet) : Except String SheetData := do
  let charts ← extract_charts ws
  .ok { name := ws.name,
        merged_cells := ws.merged_ranges,
        data := ws.rows.map (fun row => row.map cell_info),
        conditional_formats := extract_conditional_formats ws,
        charts := charts }

/-- The extraction pipeline over a decoded workbook (src/app.py lines
157-182): sheets are processed in workbook order; the first exception
aborts the whole pipeline (no partial result survives). -/
def parse_workbook (wb : Workbook) : Except String ParsedData := do
  let sheets ← wb.sheets.mapM parse_sheet
  .ok { sheets := sheets }

/-- An uploaded file from `request.files`. -/
structure UploadedFile where
  filename : String
  content : List Nat
  deriving Repr

/-- The part of a Flask request that `parse_excel` reads:
`request.files['excel_file']`, `none` when the field is missing. -/
structure HttpRequest where
  excel_file : Option UploadedFile
  deriving Repr

/-- A JSON response body: either `{"error": msg}` or the parsed data. -/
inductive Body where
  | err : String → Body
  | data : ParsedData → Body
  deriving Repr

/-- An HTTP response: status code and JSON body. -/
structure HttpResponse where
  status : Nat
  body : Body
  deriving Repr

/-- The exact 400 message for a missing `excel_file` field. -/
def msgNoFile : String :=
  "No se encontró el archivo en la petición (se esperaba el campo 'excel_file')."

/-- The exact 400 message for an empty filename. -/
def msgEmptyFilename : String := "No se seleccionó ningún archivo."

/-- The prefix of every 500 error message. -/
def msgInternalPrefix : String := "Error interno al procesar el archivo Excel: "

/-- The `/parse-excel` handler (src/app.py lines 142-191), parametrised by
the external `load_workbook` decoder (which may itself raise): field and
filename validation first, then the pipeline under the top-level
`try`/`except` that converts any exception into a 500 response. -/
def parse_excel (load_workbook : List Nat → Except String Workbook)
    (req : HttpRequest) : HttpResponse :=
  match req.excel_file with
  | none => { status := 400, body := .err msgNoFile }
  | some file =>
    if file.filename = "" then
      { status := 400, body := .err msgEmptyFilename }
    else
      match load_workbook file.content with
      | .error e =>
        { status := 500, body := .err (msgInternalPrefix ++ e) }
      | .ok wb =>
        match parse_workbook wb with
        | .error e =>
          { status := 500, body := .err (msgInternalPrefix ++ e) }
        | .ok d => { status := 200, body := .data d }

/-! ## Helper lemmas (shared) -/

/-- Every entry surviving the truthiness dict-comprehension is truthy. -/
theorem filterTruthy_all (l : List (String × PyVal)) :
    (filterTruthy l).all (fun kv => pyTruthy kv.2) = true := by
  rw [List.all_eq_true]
  intro kv hkv
  exact (List.mem_filter.mp hkv).2

/-- `get_side_style` only returns a record when the side's line style is
truthy. -/
theorem get_side_style_truthy (o : Option SideObj) (sd : SideData)
    (h : get_side_style o = some sd) : pyTruthy sd.style = true := by
  cases o with
  | none => exact absurd h (by simp [get_side_style])
  | some side =>
    simp only [get_side_style] at h
    split at h
    · next hp =>
      injection h with h2
      subst h2
      exact hp
    · exact absurd h (by simp)

/-- Every border-side entry the code emits has a truthy line style. -/
theorem border_record_truthy (b : BorderObj) :
    (border_record b).all (fun kv => pyTruthy kv.2.style) = true := by
  rw [List.all_eq_true]
  intro kv hkv
  rcases List.mem_filterMap.mp hkv with ⟨⟨k, osd⟩, hmem, hmap⟩
  cases osd with
  | none => simp at hmap
  | some sd =>
    simp only [Option.map_some] at hmap
    injection hmap with h2
    subst h2
    simp only [List.mem_cons, List.not_mem_nil, or_false, Prod.mk.injEq] at hmem
    rcases hmem with ⟨_, h⟩ | ⟨_, h⟩ | ⟨_, h⟩ | ⟨_, h⟩ <;>
      exact get_side_style_truthy _ sd h.symm

/-! ## Claim theorems -/

/-- C1 counterexample: the emitted rule record does not contain the rule's
priority — a rule carrying priority 1 and no detail payload yields a
record whose `priority` key is absent (only `range` and `type` are
written). -/
theorem process_rule_priority_missing_cex :
    process_rule "A1:A10"
      { kind := .generic, type := some "cellIs", priority := some 1,
        colorScale := none, dataBar := none, formula := none } =
      { range := "A1:A10", type := some "cellIs", priority := none } := rfl

/-- C1 (amended): for every conditional-formatting rule the emitted record
contains the base pair {range, type} — the group's range string and the
rule's type tag — even for rules with no recognized detail payload; no
`priority` key is ever emitted. -/
theorem process_rule_base_fields (rs : String) (r : Rule) :
    (process_rule rs r).range = rs ∧ (process_rule rs r).type = r.type ∧
    (process_rule rs r).priority = none := by
  rcases r with ⟨kind, ty, prio, cs, db, f⟩
  cases kind <;> cases cs <;> cases db <;> cases f <;>
    simp [process_rule] <;> split <;> simp

/-- C2 counterexample: a non-null colour reference (a `Color` instance
whose `.rgb` is unresolved, e.g. a theme colour) normalizes to Python
`None`, not to a string. -/
theorem get_serializable_color_nonstring_cex :
    get_serializable_color (ColorObj.color none) = none ∧
    ColorObj.color none ≠ ColorObj.pyNone := ⟨rfl, by decide⟩

/-- C2 (amended): colour normalization never raises, and returns a string
exactly for a `Color` instance with a truthy resolved `.rgb` (returning
that value); every other colour reference — including unresolvable theme-
or palette-indexed colours — normalizes to `None`, which the style
comprehensions then drop. -/
theorem get_serializable_color_characterization (c : ColorObj) (s : String) :
    get_serializable_color c = some s ↔
      (c = ColorObj.color (some s) ∧ s ≠ "") := by
  cases c with
  | pyNone => simp [get_serializable_color]
  | otherObj t => simp [get_serializable_color]
  | color o =>
    cases o with
    | none => simp [get_serializable_color]
    | some t =>
      by_cases ht : t = ""
      · subst ht; simp [get_serializable_color, eq_comm]
      · constructor
        · intro h
          simp only [get_serializable_color, bne_iff_ne, ne_eq, ht,
            not_false_eq_true, if_true] at h
          injection h with h2
          subst h2
          exact ⟨rfl, ht⟩
        · rintro ⟨h, hs⟩
          injection h with h2
          injection h2 with h3
          subst h3
          simp [get_serializable_color, ht]

/-- C3 counterexample: a styled cell whose font object carries only
default values yields `font: \x7b\x7d` — the sub-record is emitted as an
empty mapping, not omitted. -/
theorem extract_styles_empty_subrecord_cex :
    (extract_styles_from_cell
      { has_style := true,
        font := some { name := .vNone, sz := .vNone, bold := .vBool false,
                       italic := .vBool false, color := .pyNone },
        fill := none, border := none, alignment := none,
        number_format := .vStr "General" }).font = some [] ∧
    (some ([] : List (String × PyVal))) ≠ none := ⟨rfl, by simp⟩

/-- C3 (amended): within every emitted sub-record only truthy
(non-default) fields appear — the record is a minimal diff at field
level — and a sub-record key is present exactly when the corresponding
style object is present on a styled cell (for fill, with a truthy
pattern; for numFmt, a truthy non-General format); a present sub-object
all of whose fields are default yields its key bound to an empty mapping
rather than being omitted. -/
theorem extract_styles_minimal_diff (cell : Cell) :
    minimalFields (extract_styles_from_cell cell) = true ∧
    (extract_styles_from_cell cell).font.isSome =
      (cell.has_style && cell.font.isSome) ∧
    (extract_styles_from_cell cell).fill.isSome =
      (cell.has_style && hasTruthyFillType cell) ∧
    (extract_styles_from_cell cell).border.isSome =
      (cell.has_style && cell.border.isSome) ∧
    (extract_styles_from_cell cell).alignment.isSome =
      (cell.has_style && cell.alignment.isSome) ∧
    (extract_styles_from_cell cell).numFmt.isSome =
      (cell.has_style &&
        (pyTruthy cell.number_format && !isGeneralFmt cell.number_format)) := by
  obtain ⟨hs, font, fill, border, alignment, nf⟩ := cell
  cases hs <;> cases font <;> cases fill <;> cases border <;> cases alignment <;>
    refine ⟨?_, ?_, ?_, ?_, ?_, ?_⟩ <;>
    simp [extract_styles_from_cell, minimalFields, hasTruthyFillType,
          filterTruthy_all, border_record_truthy] <;>
    split_ifs <;>
    simp_all [filterTruthy_all, filterTruthy, List.mem_filter, and_imp] <;>
    rintro a b (⟨-, rfl⟩ | ⟨-, hb⟩) <;> assumption

/-- C4 counterexample: a rule whose `formula` attribute is the sequence
`['A1>0']` emits the whole sequence verbatim, not its first string. -/
theorem process_rule_formula_verbatim_cex :
    (process_rule "A1"
      { kind := .generic, type := some "expression", priority := some 1,
        colorScale := none, dataBar := none,
        formula := some (.vList [.vStr "A1>0"]) }).formula =
      some (PyVal.vList [PyVal.vStr "A1>0"]) ∧
    some (PyVal.vList [PyVal.vStr "A1>0"]) ≠ some (PyVal.vStr "A1>0") :=
  ⟨rfl, fun h => PyVal.noConfusion (Option.some.inj h)⟩

/-- C4 (amended): for every rule reaching the formula branch (neither the
colour-scale nor the data-bar branch fired, and the `formula` attribute
is present and truthy), the emitted `formula` field is the rule's
`formula` attribute value verbatim — the whole sequence when the
underlying representation is a sequence — and no `formula` key is
emitted otherwise. -/
theorem process_rule_formula_field (rs : String) (r : Rule) :
    (process_rule rs r).formula =
      (if !isColorScaleCase r && !isDataBarCase r && hasTruthyFormula r
       then r.formula else none) := by
  rcases r with ⟨kind, ty, prio, cs, db, f⟩
  cases kind <;> cases cs <;> cases db <;> cases f <;>
    simp [process_rule, isColorScaleCase, isDataBarCase, hasTruthyFormula] <;>
    split_ifs <;> simp_all

/-- C5 counterexample: a sheet object lacking the `_charts` attribute
makes `extract_charts` raise an `AttributeError`, not return an empty
sequence. -/
theorem extract_charts_missing_attribute_cex :
    extract_charts
      { name := "Sheet1", merged_ranges := [], conditional_formatting := [],
        charts := none, rows := [] } = Except.error chartsAttributeError ∧
    extract_charts
      { name := "Sheet1", merged_ranges := [], conditional_formatting := [],
        charts := none, rows := [] } ≠ Except.ok [] :=
  ⟨rfl, fun h => Except.noConfusion h⟩

/-- C5 (amended): a sheet whose `_charts` attribute is present but empty
yields an empty sequence; a sheet lacking the attribute altogether makes
the extractor raise an `AttributeError`, which propagates to the
top-level handler. -/
theorem extract_charts_attr_behavior (ws : Worksheet) :
    (ws.charts = some [] → extract_charts ws = Except.ok []) ∧
    (ws.charts = none → extract_charts ws = Except.error chartsAttributeError) := by
  constructor <;> intro h <;> simp [extract_charts, h]

/-- C5 witness: both branches of the amended statement at concrete sheets. -/
theorem extract_charts_attr_behavior_witness :
    extract_charts
      { name := "S", merged_ranges := [], conditional_formatting := [],
        charts := some [], rows := [] } = Except.ok [] ∧
    extract_charts
      { name := "T", merged_ranges := [], conditional_formatting := [],
        charts := none, rows := [] } = Except.error chartsAttributeError :=
  ⟨(extract_charts_attr_behavior _).1 rfl, (extract_charts_attr_behavior _).2 rfl⟩

/-- C6: the `/parse-excel` handler classifies every request: 400 with the
fixed error body when the `excel_file` field is missing or the filename
is empty (independently of the decoder, so before any parsing); 500 with
body "Error interno al procesar el archivo Excel: <detail>" when decoding
or extraction fails, with no partial data in the body; 200 with the full
parsed structure otherwise. -/
theorem parse_excel_classification (load : List Nat → Except String Workbook)
    (req : HttpRequest) :
    (req.excel_file = none →
      parse_excel load req = ⟨400, .err msgNoFile⟩) ∧
    (∀ f, req.excel_file = some f → f.filename = "" →
      parse_excel load req = ⟨400, .err msgEmptyFilename⟩) ∧
    (∀ f e, req.excel_file = some f → f.filename ≠ "" →
      load f.content = .error e →
      parse_excel load req = ⟨500, .err (msgInternalPrefix ++ e)⟩) ∧
    (∀ f wb e, req.excel_file = some f → f.filename ≠ "" →
      load f.content = .ok wb → parse_workbook wb = .error e →
      parse_excel load req = ⟨500, .err (msgInternalPrefix ++ e)⟩) ∧
    (∀ f wb d, req.excel_file = some f → f.filename ≠ "" →
      load f.content = .ok wb → parse_workbook wb = .ok d →
      parse_excel load req = ⟨200, .data d⟩) := by
  refine ⟨?_, ?_, ?_, ?_, ?_⟩
  · intro h; simp [parse_excel, h]
  · intro f hf he; simp [parse_excel, hf, he]
  · intro f e hf hne hl; simp [parse_excel, hf, hne, hl]
  · intro f wb e hf hne hl hw; simp [parse_excel, hf, hne, hl, hw]
  · intro f wb d hf hne hl hw; simp [parse_excel, hf, hne, hl, hw]

/-- C6 witness: each response class at a concrete request — missing
field, empty filename, decoder failure, extraction failure
(`AttributeError` from a chartless-attribute sheet), and success. -/
theorem parse_excel_classification_witness :
    parse_excel (fun _ => Except.ok { sheets := [] }) { excel_file := none } =
      ⟨400, .err msgNoFile⟩ ∧
    parse_excel (fun _ => Except.ok { sheets := [] })
      { excel_file := some { filename := "", content := [] } } =
      ⟨400, .err msgEmptyFilename⟩ ∧
    parse_excel (fun _ => Except.error "boom")
      { excel_file := some { filename := "a.xlsx", content := [] } } =
      ⟨500, .err (msgInternalPrefix ++ "boom")⟩ ∧
    parse_excel
      (fun _ => Except.ok { sheets :=
        [{ name := "S", merged_ranges := [], conditional_formatting := [],
           charts := none, rows := [] }] })
      { excel_file := some { filename := "a.xlsx", content := [] } } =
      ⟨500, .err (msgInternalPrefix ++ chartsAttributeError)⟩ ∧
    parse_excel (fun _ => Except.ok { sheets := [] })
      { excel_file := some { filename := "a.xlsx", content := [] } } =
      ⟨200, .data { sheets := [] }⟩ :=
  ⟨(parse_excel_classification _ _).1 rfl,
   (parse_excel_classification _ _).2.1 _ rfl rfl,
   (parse_excel_classification _ _).2.2.1 _ "boom" rfl (by decide) rfl,
   (parse_excel_classification _ _).2.2.2.1 _ _ chartsAttributeError rfl
     (by decide) rfl rfl,
   (parse_excel_classification _ _).2.2.2.2 _ _ _ rfl (by decide) rfl rfl⟩

/-- C7: a cell whose `has_style` attribute is false normalizes to the
empty style mapping, whatever its style sub-objects hold (they are never
inspected). -/
theorem extract_styles_unstyled_empty (cell : Cell)
    (h : cell.has_style = false) :
    extract_styles_from_cell cell =
      { font := none, fill := none, border := none, alignment := none,
        numFmt := none } := by
  simp [extract_styles_from_cell, h]

/-- C7 witness: an unstyled cell carrying fully populated style
sub-objects still yields the empty mapping. -/
theorem extract_styles_unstyled_empty_witness :
    extract_styles_from_cell
      { has_style := false,
        font := some { name := .vStr "Arial", sz := .vNum 14,
                       bold := .vBool true, italic := .vBool true,
                       color := .color (some "FF000000") },
        fill := none, border := none, alignment := none,
        number_format := .vStr "0.00" } =
      { font := none, fill := none, border := none, alignment := none,
        numFmt := none } :=
  extract_styles_unstyled_empty _ rfl

/-- C8: a merged-range placeholder cell (a `MergedCell` instance) emits
exactly {address, value, is_merged_part: true} with no `style` key. -/
theorem cell_info_merged_placeholder (c : GridCell)
    (h : c.isMergedCell = true) :
    cell_info c = { address := c.coordinate, value := c.value,
                    is_merged_part := some true, style := none } := by
  simp [cell_info, h]

/-- C8 witness: a concrete merged placeholder, even one whose style
attributes are populated, emits no style key. -/
theorem cell_info_merged_placeholder_witness :
    cell_info
      { coordinate := "B1", value := .vNone, isMergedCell := true,
        styleAttrs := { has_style := true, font := none, fill := none,
                        border := none, alignment := none,
                        number_format := .vStr "0.00" } } =
      { address := "B1", value := .vNone, is_merged_part := some true,
        style := none } :=
  cell_info_merged_placeholder _ rfl

/-- C9: the handler is deterministic — two uploads carrying the same
filename and the same bytes produce identical responses (the whole
pipeline is a pure function of the uploaded bytes; no timestamps,
iteration-order effects or object identity enter the output). -/
theorem parse_excel_deterministic (load : List Nat → Except String Workbook)
    (f g : UploadedFile) (hn : f.filename = g.filename)
    (hc : f.content = g.content) :
    parse_excel load { excel_file := some f } =
      parse_excel load { excel_file := some g } := by
  cases f; cases g
  cases hn; cases hc
  rfl

/-- C9 witness: determinism at a concrete upload. -/
theorem parse_excel_deterministic_witness :
    parse_excel (fun _ => Except.ok { sheets := [] })
      { excel_file := some { filename := "a.xlsx", content := [80, 75] } } =
    parse_excel (fun _ => Except.ok { sheets := [] })
      { excel_file := some { filename := "a.xlsx", content := [80, 75] } } :=
  parse_excel_deterministic _ _ _ rfl rfl

/-- C10: every emitted rule record carries at most one detail payload
key, chosen by the fixed `if`/`elif` precedence: `color_scale` exactly
for a colour-scale rule with a colorScale payload; else `data_bar` for a
data-bar rule with a dataBar payload; else `formula` when a truthy
formula attribute is present. -/
theorem process_rule_payload_precedence (rs : String) (r : Rule) :
    payloadCount (process_rule rs r) ≤ 1 ∧
    (process_rule rs r).color_scale.isSome = isColorScaleCase r ∧
    (process_rule rs r).data_bar.isSome =
      (!isColorScaleCase r && isDataBarCase r) ∧
    (process_rule rs r).formula.isSome =
      (!isColorScaleCase r && !isDataBarCase r && hasTruthyFormula r) := by
  rcases r with ⟨kind, ty, prio, cs, db, f⟩
  cases kind <;> cases cs <;> cases db <;> cases f <;>
    simp [process_rule, payloadCount, isColorScaleCase, isDataBarCase,
          hasTruthyFormula] <;>
    split_ifs <;> simp_all [payloadCount]

end ExcelApp
